import Mathlib

/-!
Verification of the key-value storage binding layer in
`src/plugins/cognitive_engine/rocksdb_stubs.c` (the `HAVE_ROCKSDB` branch).

The C file is OCaml binding glue around the RocksDB C API.  The embedding
below translates each `caml_rocksdb_*` entry point into a Lean function over
an explicit state model:

* the logical contents of the physical store are a list of column-family
  keyspaces (`Store`), each an association list of byte-string entries;
* the external RocksDB engine calls (`rocksdb_put`, `rocksdb_get`,
  `rocksdb_write`, ...) are modelled per the RocksDB C API contract: a
  write either fails (reporting an error string) or applies; `rocksdb_write`
  applies a whole write batch atomically; a read consults the read options'
  snapshot when one is set and the live store otherwise.  Backend failures
  are injected through an explicit `Option String` error parameter, since
  whether the disk fails is outside the program;
* OCaml custom blocks holding a wrapper pointer are modelled as
  `Option` of the wrapper structure (`none` is a NULL pointer, which is what
  the destroy functions store back into the block);
* `caml_failwith` is an `Except.error` carrying the exact message the C
  code formats.
-/

deriving instance DecidableEq for Except

/-- OCaml strings: opaque byte sequences used for keys and values. -/
abbrev Bytes := String

/-- Logical contents of one column family: an association list with unique
keys, first match wins. -/
abbrev KeyMap := List (Bytes × Bytes)

/-- Lookup in one column family (the engine's point read). -/
def kvGet : KeyMap → Bytes → Option Bytes
  | [], _ => none
  | (k, v) :: rest, key => if k = key then some v else kvGet rest key

/-- Upsert in one column family (the engine's point write). -/
def kvPut : KeyMap → Bytes → Bytes → KeyMap
  | [], key, v => [(key, v)]
  | (k, w) :: rest, key, v =>
    if k = key then (key, v) :: rest else (k, w) :: kvPut rest key v

/-- Removal from one column family; removing an absent key is a no-op. -/
def kvDel : KeyMap → Bytes → KeyMap
  | [], _ => []
  | (k, w) :: rest, key =>
    if k = key then kvDel rest key else (k, w) :: kvDel rest key

/-- Logical contents of the physical store: one keyspace per column-family
index.  Index 0 is the default column family (the one the non-`_cf` RocksDB
calls address). -/
abbrev Store := List KeyMap

/-- The keyspace at a column-family index (empty when never written). -/
def storeGet (s : Store) (cf : Nat) : KeyMap := s.getD cf []

/-- Replace the keyspace at a column-family index, padding with empty
keyspaces when the store is shorter. -/
def storeSet : Store → Nat → KeyMap → Store
  | [], 0, m => [m]
  | [], Nat.succ n, m => [] :: storeSet [] n m
  | _ :: xs, 0, m => m :: xs
  | x :: xs, Nat.succ n, m => x :: storeSet xs n m

/-- `rocksdb_readoptions_t`: the only field the binding layer could ever
vary is the snapshot a read is pinned to. -/
structure ReadOptions where
  snapshot : Option Store
deriving DecidableEq

/-- `rocksdb_readoptions_create()`: default read options, no snapshot set. -/
def rocksdb_readoptions_create : ReadOptions := { snapshot := none }

/-- `rocksdb_wrapper` (rocksdb_stubs.c lines 60-69): the database handle.
`cf_handles` records which column-family handle pointers are non-NULL;
`write_options` holds no state the binding layer ever reads, so it is
omitted. -/
structure DBWrapper where
  store : Store
  read_options : ReadOptions
  cf_handles : List Bool
  n_cf : Nat
  is_open : Bool
  path : String
deriving DecidableEq

/-- `wrapper->cf_handles[i] != NULL`. -/
def cfLive (w : DBWrapper) (i : Nat) : Bool := w.cf_handles.getD i false

/-- The column-family index a point operation actually addresses: the C
dispatch `cf_idx > 0 && cf_idx < wrapper->n_cf && wrapper->cf_handles[cf_idx]
!= NULL` selects the named family, anything else falls back to the default
(non-`_cf`) call, i.e. column family 0. -/
def effCF (w : DBWrapper) (cf_idx : Int) : Nat :=
  if 0 < cf_idx ∧ cf_idx < (w.n_cf : Int) ∧ cfLive w cf_idx.toNat = true
  then cf_idx.toNat else 0

/-- The store a read observes: the read options' snapshot when set, the live
store otherwise (RocksDB read semantics). -/
def readSrc (w : DBWrapper) : Store := w.read_options.snapshot.getD w.store

/-- The C guard `wrapper != NULL && wrapper->is_open`. -/
def dbGuard (h : Option DBWrapper) : Bool :=
  match h with
  | none => false
  | some w => w.is_open

/-- `caml_rocksdb_is_open` (lines 280-285). -/
def caml_rocksdb_is_open (h : Option DBWrapper) : Bool := dbGuard h

/-- `caml_rocksdb_close` (lines 254-278): frees the wrapper and stores NULL
back into the handle cell; a NULL or already-closed wrapper is left alone. -/
def caml_rocksdb_close (h : Option DBWrapper) : Option DBWrapper :=
  match h with
  | none => none
  | some w => if w.is_open then none else some w

/-- `caml_rocksdb_put` (lines 293-331).  `backendErr` injects the engine's
error outcome; per the RocksDB write contract a failed write leaves the
store unchanged (the caller keeps the old state on `Except.error`). -/
def caml_rocksdb_put (h : Option DBWrapper) (cf_idx : Int) (key v : Bytes)
    (backendErr : Option String) : Except String DBWrapper :=
  match h with
  | none => .error "rocksdb_put: database not open"
  | some w =>
    if w.is_open = false then .error "rocksdb_put: database not open"
    else
      match backendErr with
      | some e => .error ("rocksdb_put failed: " ++ e)
      | none =>
        let cf := effCF w cf_idx
        .ok { w with store := storeSet w.store cf (kvPut (storeGet w.store cf) key v) }

/-- `caml_rocksdb_get` (lines 333-387): `None` when the engine returns no
value, `Some` bytes otherwise; an engine error becomes `caml_failwith`. -/
def caml_rocksdb_get (h : Option DBWrapper) (cf_idx : Int) (key : Bytes)
    (backendErr : Option String) : Except String (Option Bytes) :=
  match h with
  | none => .error "rocksdb_get: database not open"
  | some w =>
    if w.is_open = false then .error "rocksdb_get: database not open"
    else
      match backendErr with
      | some e => .error ("rocksdb_get failed: " ++ e)
      | none => .ok (kvGet (storeGet (readSrc w) (effCF w cf_idx)) key)

/-- `caml_rocksdb_delete` (lines 389-425). -/
def caml_rocksdb_delete (h : Option DBWrapper) (cf_idx : Int) (key : Bytes)
    (backendErr : Option String) : Except String DBWrapper :=
  match h with
  | none => .error "rocksdb_delete: database not open"
  | some w =>
    if w.is_open = false then .error "rocksdb_delete: database not open"
    else
      match backendErr with
      | some e => .error ("rocksdb_delete failed: " ++ e)
      | none =>
        let cf := effCF w cf_idx
        .ok { w with store := storeSet w.store cf (kvDel (storeGet w.store cf) key) }

/-- `caml_rocksdb_exists` (lines 427-468): same engine lookup as `get`, but
an engine error is swallowed (`free(err)` and return false) instead of
raised. -/
def caml_rocksdb_exists (h : Option DBWrapper) (cf_idx : Int) (key : Bytes)
    (backendErr : Option String) : Except String Bool :=
  match h with
  | none => .error "rocksdb_exists: database not open"
  | some w =>
    if w.is_open = false then .error "rocksdb_exists: database not open"
    else
      match backendErr with
      | some _ => .ok false
      | none => .ok (kvGet (storeGet (readSrc w) (effCF w cf_idx)) key).isSome

/-- One pending mutation of a write batch (`rocksdb_writebatch_put` /
`rocksdb_writebatch_delete`; the bindings use only the default-column-family
variants, so a batch operation always addresses column family 0). -/
inductive BatchOp where
  | putOp (key v : Bytes)
  | delOp (key : Bytes)
deriving DecidableEq

/-- `rocksdb_batch_wrapper` (lines 72-75): the engine write batch pointer
(NULL modelled as `none`, the live batch as its pending-operation list, in
insertion order) and the binding layer's own operation counter. -/
structure BatchWrapper where
  batch : Option (List BatchOp)
  n_ops : Nat
deriving DecidableEq

/-- `caml_rocksdb_batch_create` (lines 476-492): a fresh empty batch. -/
def caml_rocksdb_batch_create : BatchWrapper :=
  { batch := some [], n_ops := 0 }

/-- `caml_rocksdb_batch_put` (lines 494-510): appends a put and bumps the
counter; a NULL wrapper or NULL engine batch is an error. -/
def caml_rocksdb_batch_put (h : Option BatchWrapper) (key v : Bytes) :
    Except String BatchWrapper :=
  match h with
  | none => .error "rocksdb_batch_put: invalid batch"
  | some w =>
    match w.batch with
    | none => .error "rocksdb_batch_put: invalid batch"
    | some ops => .ok { batch := some (ops ++ [BatchOp.putOp key v]), n_ops := w.n_ops + 1 }

/-- `caml_rocksdb_batch_delete` (lines 512-527). -/
def caml_rocksdb_batch_delete (h : Option BatchWrapper) (key : Bytes) :
    Except String BatchWrapper :=
  match h with
  | none => .error "rocksdb_batch_delete: invalid batch"
  | some w =>
    match w.batch with
    | none => .error "rocksdb_batch_delete: invalid batch"
    | some ops => .ok { batch := some (ops ++ [BatchOp.delOp key]), n_ops := w.n_ops + 1 }

/-- `caml_rocksdb_batch_clear` (lines 529-541): empties the engine batch and
resets the counter, keeping the wrapper alive. -/
def caml_rocksdb_batch_clear (h : Option BatchWrapper) : Except String BatchWrapper :=
  match h with
  | none => .error "rocksdb_batch_clear: invalid batch"
  | some w =>
    match w.batch with
    | none => .error "rocksdb_batch_clear: invalid batch"
    | some _ => .ok { batch := some [], n_ops := 0 }

/-- `caml_rocksdb_batch_count` (lines 543-552): a NULL wrapper yields 0
without an error; otherwise the stored counter. -/
def caml_rocksdb_batch_count (h : Option BatchWrapper) : Nat :=
  match h with
  | none => 0
  | some w => w.n_ops

/-- One batch operation applied to the store (always at column family 0,
matching the non-`_cf` writebatch calls the bindings issue). -/
def applyBatchOp (s : Store) : BatchOp → Store
  | .putOp k v => storeSet s 0 (kvPut (storeGet s 0) k v)
  | .delOp k => storeSet s 0 (kvDel (storeGet s 0) k)

/-- `rocksdb_write` on success: the batch's pending operations applied to
the store in insertion order, as one atomic unit. -/
def applyBatch (s : Store) (ops : List BatchOp) : Store :=
  ops.foldl applyBatchOp s

/-- `caml_rocksdb_batch_write` (lines 554-578): one `rocksdb_write` call;
per the RocksDB contract the batch commits atomically, and on an engine
error nothing is applied (the caller keeps the old state). -/
def caml_rocksdb_batch_write (hd : Option DBWrapper) (hb : Option BatchWrapper)
    (backendErr : Option String) : Except String DBWrapper :=
  match hd with
  | none => .error "rocksdb_batch_write: database not open"
  | some w =>
    if w.is_open = false then .error "rocksdb_batch_write: database not open"
    else
      match hb with
      | none => .error "rocksdb_batch_write: invalid batch"
      | some b =>
        match b.batch with
        | none => .error "rocksdb_batch_write: invalid batch"
        | some ops =>
          match backendErr with
          | some e => .error ("rocksdb_batch_write failed: " ++ e)
          | none => .ok { w with store := applyBatch w.store ops }

/-- `caml_rocksdb_batch_destroy` (lines 580-593): frees a non-NULL wrapper
and stores NULL back into the handle cell; a NULL wrapper falls through and
the call still returns unit.  The pair is (outcome, handle cell after the
call). -/
def caml_rocksdb_batch_destroy (h : Option BatchWrapper) :
    Except String Unit × Option BatchWrapper :=
  match h with
  | none => (.ok (), none)
  | some _ => (.ok (), none)

/-- The engine-side iterator (`rocksdb_iterator_t`): the entries of the
column family it was created over, in key order, and the cursor position
(`none` when not positioned on an entry). -/
structure EngineIter where
  entries : List (Bytes × Bytes)
  pos : Option Nat
deriving DecidableEq

/-- `rocksdb_iter_valid`: positioned on an existing entry. -/
def engineIterValid (e : EngineIter) : Bool :=
  match e.pos with
  | none => false
  | some i => i < e.entries.length

/-- `rocksdb_iter_key`: the current entry's key when the iterator is valid;
otherwise the result is undefined, modelled by the caller-supplied `junk`
bytes. -/
def engineIterKey (e : EngineIter) (junk : Bytes) : Bytes :=
  match e.pos with
  | none => junk
  | some i =>
    match e.entries.get? i with
    | some kv => kv.1
    | none => junk

/-- `rocksdb_iter_value`: like `engineIterKey`, undefined when invalid. -/
def engineIterValue (e : EngineIter) (junk : Bytes) : Bytes :=
  match e.pos with
  | none => junk
  | some i =>
    match e.entries.get? i with
    | some kv => kv.2
    | none => junk

/-- `rocksdb_iter_wrapper` (lines 78-81): the engine iterator pointer (NULL
as `none`) and the column-family index it was created for. -/
structure IterWrapper where
  iter : Option EngineIter
  cf_index : Int
deriving DecidableEq

/-- Insert one entry into a key-sorted entry list. -/
def insertEntry (p : Bytes × Bytes) : List (Bytes × Bytes) → List (Bytes × Bytes)
  | [] => [p]
  | q :: rest => if p.1 ≤ q.1 then p :: q :: rest else q :: insertEntry p rest

/-- A column family's entries in the engine's iteration order (sorted by
key). -/
def sortEntries : List (Bytes × Bytes) → List (Bytes × Bytes)
  | [] => []
  | p :: rest => insertEntry p (sortEntries rest)

/-- `caml_rocksdb_iter_create` (lines 601-632): the same column-family
dispatch as the point operations; the new iterator starts unpositioned. -/
def caml_rocksdb_iter_create (h : Option DBWrapper) (cf_idx : Int) :
    Except String IterWrapper :=
  match h with
  | none => .error "rocksdb_iter_create: database not open"
  | some w =>
    if w.is_open = false then .error "rocksdb_iter_create: database not open"
    else
      .ok { iter := some { entries := sortEntries (storeGet (readSrc w) (effCF w cf_idx)),
                           pos := none },
            cf_index := cf_idx }

/-- `caml_rocksdb_iter_valid` (lines 699-708): false for a NULL wrapper or
NULL engine iterator, otherwise the engine's validity. -/
def caml_rocksdb_iter_valid (h : Option IterWrapper) : Bool :=
  match h with
  | none => false
  | some w =>
    match w.iter with
    | none => false
    | some e => engineIterValid e

/-- `caml_rocksdb_iter_key` (lines 710-726): errors only when the wrapper or
engine iterator pointer is NULL; it does not consult `rocksdb_iter_valid`,
so an exhausted-but-live iterator yields whatever the engine returns. -/
def caml_rocksdb_iter_key (h : Option IterWrapper) (junk : Bytes) :
    Except String Bytes :=
  match h with
  | none => .error "rocksdb_iter_key: invalid iterator"
  | some w =>
    match w.iter with
    | none => .error "rocksdb_iter_key: invalid iterator"
    | some e => .ok (engineIterKey e junk)

/-- `caml_rocksdb_iter_value` (lines 728-744): same guard as
`caml_rocksdb_iter_key`, no validity check. -/
def caml_rocksdb_iter_value (h : Option IterWrapper) (junk : Bytes) :
    Except String Bytes :=
  match h with
  | none => .error "rocksdb_iter_value: invalid iterator"
  | some w =>
    match w.iter with
    | none => .error "rocksdb_iter_value: invalid iterator"
    | some e => .ok (engineIterValue e junk)

/-- `caml_rocksdb_iter_destroy` (lines 746-759): frees a non-NULL wrapper
and nulls the handle cell; a NULL wrapper falls through, returning unit. -/
def caml_rocksdb_iter_destroy (h : Option IterWrapper) :
    Except String Unit × Option IterWrapper :=
  match h with
  | none => (.ok (), none)
  | some _ => (.ok (), none)

/-- `rocksdb_snapshot_wrapper` (lines 84-87): the engine snapshot (the store
as captured, NULL as `none`) and whether the parent database pointer is
non-NULL. -/
structure SnapWrapper where
  snapshot : Option Store
  db_live : Bool
deriving DecidableEq

/-- `caml_rocksdb_snapshot_create` (lines 767-791): captures the current
store.  The database wrapper itself is left untouched — in particular its
`read_options` still carry no snapshot. -/
def caml_rocksdb_snapshot_create (h : Option DBWrapper) : Except String SnapWrapper :=
  match h with
  | none => .error "rocksdb_snapshot_create: database not open"
  | some w =>
    if w.is_open = false then .error "rocksdb_snapshot_create: database not open"
    else .ok { snapshot := some w.store, db_live := true }

/-- `caml_rocksdb_snapshot_release` (lines 793-805): releases and nulls the
handle cell when the wrapper, its snapshot and its parent pointer are all
non-NULL; otherwise falls through, returning unit. -/
def caml_rocksdb_snapshot_release (h : Option SnapWrapper) :
    Except String Unit × Option SnapWrapper :=
  match h with
  | none => (.ok (), none)
  | some s =>
    if s.snapshot.isSome && s.db_live then (.ok (), none) else (.ok (), some s)

/-- `caml_rocksdb_get_property` (lines 813-835): the engine's property value
(absence is `None`, never an error once the handle is open). -/
def caml_rocksdb_get_property (h : Option DBWrapper) (backendVal : Option String) :
    Except String (Option String) :=
  match h with
  | none => .error "rocksdb_get_property: database not open"
  | some w =>
    if w.is_open = false then .error "rocksdb_get_property: database not open"
    else .ok backendVal

/-- `caml_rocksdb_compact_range` (lines 837-854): a layout hint with no
logical effect. -/
def caml_rocksdb_compact_range (h : Option DBWrapper) (_cf_idx : Int) :
    Except String Unit :=
  match h with
  | none => .error "rocksdb_compact_range: database not open"
  | some w =>
    if w.is_open = false then .error "rocksdb_compact_range: database not open"
    else .ok ()

/-- `caml_rocksdb_flush` (lines 856-879): a waiting flush; an engine error
is surfaced. -/
def caml_rocksdb_flush (h : Option DBWrapper) (backendErr : Option String) :
    Except String Unit :=
  match h with
  | none => .error "rocksdb_flush: database not open"
  | some w =>
    if w.is_open = false then .error "rocksdb_flush: database not open"
    else
      match backendErr with
      | some e => .error ("rocksdb_flush failed: " ++ e)
      | none => .ok ()

/-- The well-known column-family names (lines 48-55, 182-185), in registry
order. -/
def cfNames : List String :=
  ["default", "nodes", "links", "incoming", "outgoing",
   "attention", "truth_values", "metadata"]

/-- The environment a `caml_rocksdb_open` call runs in: the on-disk
contents, the outcome of the registry-complete open
(`rocksdb_open_column_families`), the outcome of the plain `rocksdb_open`
fallback, the per-index outcome of `rocksdb_create_column_family`, and
whether the wrapper allocation succeeds. -/
structure OpenEnv where
  existingStore : Store
  cfOpenErr : Option String
  plainOpenErr : Option String
  createCFErr : Nat → Option String
  mallocOk : Bool

/-- The wrapper `caml_rocksdb_open` builds when the registry-complete first
phase succeeds: all eight column-family handles live. -/
def firstPhaseWrapper (path : String) (env : OpenEnv) : DBWrapper :=
  { store := env.existingStore
    read_options := rocksdb_readoptions_create
    cf_handles := List.replicate 8 true
    n_cf := 8
    is_open := true
    path := path }

/-- The wrapper built on the fallback path (lines 204-227): the default
handle slot is explicitly NULL (`cf_handles[0] = NULL`), the others are live
exactly when their `rocksdb_create_column_family` call reported no error. -/
def fallbackWrapper (path : String) (env : OpenEnv) : DBWrapper :=
  { store := env.existingStore
    read_options := rocksdb_readoptions_create
    cf_handles := false :: (List.range 7).map (fun i => (env.createCFErr (i + 1)).isNone)
    n_cf := 8
    is_open := true
    path := path }

/-- `caml_rocksdb_open` (lines 153-252).  The second component of a
successful result records the names for which the fallback path issued an
explicit `rocksdb_create_column_family` call (the loop runs over indices
1..7 and swallows individual errors); the first phase issues none.
`create_if_missing` and `compression` only configure engine options and
carry no further logic in the binding layer. -/
def caml_rocksdb_open (path : String) (_create_if_missing : Bool) (_compression : Int)
    (env : OpenEnv) : Except String (DBWrapper × List String) :=
  match env.cfOpenErr with
  | none =>
    if env.mallocOk = false then .error "rocksdb_open: failed to allocate wrapper"
    else .ok (firstPhaseWrapper path env, [])
  | some _ =>
    match env.plainOpenErr with
    | some e2 => .error ("rocksdb_open failed: " ++ e2)
    | none =>
      if env.mallocOk = false then .error "rocksdb_open: failed to allocate wrapper"
      else .ok (fallbackWrapper path env, cfNames.drop 1)

/-- A sample open database wrapper, as the first-phase open would build it,
with one entry in the default column family.  Used to instantiate witness
statements. -/
def sampleDB : DBWrapper :=
  { store := [[("a", "1")]]
    read_options := rocksdb_readoptions_create
    cf_handles := List.replicate 8 true
    n_cf := 8
    is_open := true
    path := "p" }

/-- The namespace index the spec's words designate for a point operation:
out of the registry's range (index 0, a negative index, an index at or
beyond the registered count, or an index whose handle is absent) means the
default namespace 0; an index strictly between 0 and the count with a live
handle means that namespace. -/
def spec_namespace_target (cf_idx : Int) (n_cf : Nat) (handles : List Bool) : Nat :=
  if cf_idx ≤ 0 ∨ (n_cf : Int) ≤ cf_idx ∨ handles.getD cf_idx.toNat false = false
  then 0 else cf_idx.toNat

/-- A live iterator wrapper whose engine iterator is not positioned on any
entry: `caml_rocksdb_iter_valid` is false for it, yet its handle pointers
are all non-NULL. -/
def exhaustedIter : IterWrapper :=
  { iter := some { entries := [], pos := none }, cf_index := 0 }

/-- Whether the wrapper and its engine iterator pointer are both non-NULL:
the only condition `iter_key`/`iter_value` actually test. -/
def iterHandleLive (h : Option IterWrapper) : Bool :=
  match h with
  | none => false
  | some w => w.iter.isSome

/-- An open environment in which the registry-complete first open fails (a
brand-new path has no column families yet) and the fallback path succeeds
with no further errors. -/
def freshPathEnv : OpenEnv :=
  { existingStore := []
    cfOpenErr := some "Invalid argument: Column family not found"
    plainOpenErr := none
    createCFErr := fun _ => none
    mallocOk := true }

/-- A database wrapper as the first-phase open builds it, holding the prior
value V1 under key K in the default namespace. -/
def snapshotScenarioDB : DBWrapper :=
  { store := [("K", "V1")] :: List.replicate 7 []
    read_options := rocksdb_readoptions_create
    cf_handles := List.replicate 8 true
    n_cf := 8
    is_open := true
    path := "p" }

/-- The wrapper state after `put(db, 0, K, V2)` overwrites V1. -/
def snapshotScenarioDBAfter : DBWrapper :=
  { snapshotScenarioDB with
      store := storeSet snapshotScenarioDB.store 0
        (kvPut (storeGet snapshotScenarioDB.store 0) "K" "V2") }

/-- C6: every operation attempted against a closed or never-opened database
handle — put, get, delete, exists, batch_write, iter_create,
snapshot_create, get_property, compact_range and flush — fails with its
surfaced not-open error instead of proceeding or substituting a default. -/
theorem closed_handle_rejected (h : Option DBWrapper) (hc : dbGuard h = false) :
    (∀ cf_idx k v e, caml_rocksdb_put h cf_idx k v e = .error "rocksdb_put: database not open")
    ∧ (∀ cf_idx k e, caml_rocksdb_get h cf_idx k e = .error "rocksdb_get: database not open")
    ∧ (∀ cf_idx k e, caml_rocksdb_delete h cf_idx k e = .error "rocksdb_delete: database not open")
    ∧ (∀ cf_idx k e, caml_rocksdb_exists h cf_idx k e = .error "rocksdb_exists: database not open")
    ∧ (∀ hb e, caml_rocksdb_batch_write h hb e = .error "rocksdb_batch_write: database not open")
    ∧ (∀ cf_idx, caml_rocksdb_iter_create h cf_idx = .error "rocksdb_iter_create: database not open")
    ∧ caml_rocksdb_snapshot_create h = .error "rocksdb_snapshot_create: database not open"
    ∧ (∀ p, caml_rocksdb_get_property h p = .error "rocksdb_get_property: database not open")
    ∧ (∀ cf_idx, caml_rocksdb_compact_range h cf_idx = .error "rocksdb_compact_range: database not open")
    ∧ (∀ e, caml_rocksdb_flush h e = .error "rocksdb_flush: database not open") := by
  cases h with
  | none =>
      exact ⟨fun _ _ _ _ => rfl, fun _ _ _ => rfl, fun _ _ _ => rfl, fun _ _ _ => rfl,
        fun _ _ => rfl, fun _ => rfl, rfl, fun _ => rfl, fun _ => rfl, fun _ => rfl⟩
  | some w =>
      have hw : w.is_open = false := by simpa [dbGuard] using hc
      refine ⟨fun _ _ _ _ => ?_, fun _ _ _ => ?_, fun _ _ _ => ?_, fun _ _ _ => ?_,
        fun _ _ => ?_, fun _ => ?_, ?_, fun _ => ?_, fun _ => ?_, fun _ => ?_⟩ <;>
        simp [caml_rocksdb_put, caml_rocksdb_get, caml_rocksdb_delete, caml_rocksdb_exists,
          caml_rocksdb_batch_write, caml_rocksdb_iter_create, caml_rocksdb_snapshot_create,
          caml_rocksdb_get_property, caml_rocksdb_compact_range, caml_rocksdb_flush, hw]

/-- Witness for `closed_handle_rejected`: a NULL handle cell is closed and a
flush against it is rejected with the not-open error. -/
theorem closed_handle_rejected_witness :
    dbGuard (none : Option DBWrapper) = false
    ∧ caml_rocksdb_flush none none = .error "rocksdb_flush: database not open" :=
  ⟨rfl, (closed_handle_rejected none rfl).2.2.2.2.2.2.2.2.2 none⟩

/-- The spec's namespace dispatch and the code's dispatch condition are the
same function. -/
theorem spec_namespace_target_eq (cf_idx : Int) (n_cf : Nat) (handles : List Bool) :
    spec_namespace_target cf_idx n_cf handles =
      (if 0 < cf_idx ∧ cf_idx < (n_cf : Int) ∧ handles.getD cf_idx.toNat false = true
       then cf_idx.toNat else 0) := by
  unfold spec_namespace_target
  by_cases hp : 0 < cf_idx ∧ cf_idx < (n_cf : Int) ∧ handles.getD cf_idx.toNat false = true
  · obtain ⟨h1, h2, h3⟩ := hp
    have hA : ¬(cf_idx ≤ 0 ∨ (n_cf : Int) ≤ cf_idx ∨ handles.getD cf_idx.toNat false = false) := by
      rintro (h | h | h)
      · omega
      · omega
      · rw [h] at h3
        simp at h3
    rw [if_neg hA, if_pos ⟨h1, h2, h3⟩]
  · have hA : cf_idx ≤ 0 ∨ (n_cf : Int) ≤ cf_idx ∨ handles.getD cf_idx.toNat false = false := by
      by_cases ha : 0 < cf_idx
      · by_cases hb : cf_idx < (n_cf : Int)
        · rcases Bool.eq_false_or_eq_true (handles.getD cf_idx.toNat false) with ht | ht
          · exact absurd ⟨ha, hb, ht⟩ hp
          · exact Or.inr (Or.inr ht)
        · exact Or.inr (Or.inl (by omega))
      · exact Or.inl (by omega)
    rw [if_pos hA, if_neg hp]

/-- C7: every point operation (put, get, delete, exists) on an open database
addresses exactly the namespace the spec designates: the code's
column-family dispatch agrees with `spec_namespace_target` on every index,
and each operation reads or writes that namespace's keyspace. -/
theorem pointops_namespace_fallback (w : DBWrapper) (cf_idx : Int) (k v : Bytes)
    (hopen : w.is_open = true) :
    spec_namespace_target cf_idx w.n_cf w.cf_handles = effCF w cf_idx
    ∧ caml_rocksdb_put (some w) cf_idx k v none =
        .ok { w with store := (storeSet w.store (spec_namespace_target cf_idx w.n_cf w.cf_handles)
                (kvPut (storeGet w.store (spec_namespace_target cf_idx w.n_cf w.cf_handles)) k v)) }
    ∧ caml_rocksdb_get (some w) cf_idx k none =
        .ok (kvGet (storeGet (readSrc w) (spec_namespace_target cf_idx w.n_cf w.cf_handles)) k)
    ∧ caml_rocksdb_delete (some w) cf_idx k none =
        .ok { w with store := (storeSet w.store (spec_namespace_target cf_idx w.n_cf w.cf_handles)
                (kvDel (storeGet w.store (spec_namespace_target cf_idx w.n_cf w.cf_handles)) k)) }
    ∧ caml_rocksdb_exists (some w) cf_idx k none =
        .ok (kvGet (storeGet (readSrc w) (spec_namespace_target cf_idx w.n_cf w.cf_handles)) k).isSome := by
  have heq : spec_namespace_target cf_idx w.n_cf w.cf_handles = effCF w cf_idx := by
    rw [spec_namespace_target_eq]
    rfl
  refine ⟨heq, ?_, ?_, ?_, ?_⟩ <;>
    simp [caml_rocksdb_put, caml_rocksdb_get, caml_rocksdb_delete, caml_rocksdb_exists,
      hopen, heq]

/-- Witness for `pointops_namespace_fallback`: on the sample open database
the out-of-range index 9 is dispatched to the default namespace 0. -/
theorem pointops_namespace_fallback_witness :
    sampleDB.is_open = true
    ∧ spec_namespace_target 9 sampleDB.n_cf sampleDB.cf_handles = effCF sampleDB 9 :=
  ⟨rfl, (pointops_namespace_fallback sampleDB 9 "a" "z" rfl).1⟩

/-- C5: on an open database, `exists` never raises on a backend lookup
error — any engine failure is downgraded to a negative result — and on a
successful lookup it returns present exactly when `get` does. -/
theorem exists_downgrades_backend_errors (w : DBWrapper) (hopen : w.is_open = true) :
    (∀ cf_idx k e, caml_rocksdb_exists (some w) cf_idx k (some e) = .ok false)
    ∧ (∀ cf_idx k, caml_rocksdb_exists (some w) cf_idx k none =
        (caml_rocksdb_get (some w) cf_idx k none).map (fun r => r.isSome)) := by
  constructor <;> intros <;>
    simp [caml_rocksdb_exists, caml_rocksdb_get, hopen, Except.map]

/-- Witness for `exists_downgrades_backend_errors`: on the sample database a
backend failure makes `exists` answer false instead of raising. -/
theorem exists_downgrades_backend_errors_witness :
    sampleDB.is_open = true
    ∧ caml_rocksdb_exists (some sampleDB) 0 "a" (some "IO error") = .ok false :=
  ⟨rfl, (exists_downgrades_backend_errors sampleDB rfl).1 0 "a" "IO error"⟩

/-- C2: committing a batch against an open database is all-or-nothing: on
success the resulting store is the batch's pending operations applied as one
unit in insertion order; on an engine failure the call surfaces the error
and no new state is produced, so every reader keeps observing the old
store. -/
theorem batch_write_atomic (w : DBWrapper) (b : BatchWrapper) (ops : List BatchOp)
    (hopen : w.is_open = true) (hb : b.batch = some ops) :
    caml_rocksdb_batch_write (some w) (some b) none =
      .ok { w with store := applyBatch w.store ops }
    ∧ ∀ e, caml_rocksdb_batch_write (some w) (some b) (some e) =
        .error ("rocksdb_batch_write failed: " ++ e) := by
  constructor
  · simp [caml_rocksdb_batch_write, hopen, hb]
  · intro e; simp [caml_rocksdb_batch_write, hopen, hb]

/-- Witness for `batch_write_atomic`: writing a fresh empty batch to the
sample database succeeds and applies nothing. -/
theorem batch_write_atomic_witness :
    sampleDB.is_open = true
    ∧ caml_rocksdb_batch_create.batch = some []
    ∧ caml_rocksdb_batch_write (some sampleDB) (some caml_rocksdb_batch_create) none =
        .ok { sampleDB with store := applyBatch sampleDB.store [] } :=
  ⟨rfl, rfl, (batch_write_atomic sampleDB caml_rocksdb_batch_create [] rfl rfl).1⟩

/-- C8: a fresh batch counts 0 pending operations; on a live batch whose
counter matches its pending list, a successful put or delete appends exactly
one operation and raises the count by exactly one (keeping counter = pending
length), clear resets the pending list and count to zero while keeping the
batch alive, and count reports the number of pending operations. -/
theorem batch_count_tracks_pending_ops (b : BatchWrapper) (ops : List BatchOp) (k v : Bytes)
    (h1 : b.batch = some ops) (h2 : b.n_ops = ops.length) :
    caml_rocksdb_batch_count (some b) = ops.length
    ∧ caml_rocksdb_batch_create.n_ops = 0
    ∧ caml_rocksdb_batch_create.batch = some []
    ∧ caml_rocksdb_batch_put (some b) k v =
        .ok { batch := some (ops ++ [BatchOp.putOp k v]), n_ops := ops.length + 1 }
    ∧ caml_rocksdb_batch_delete (some b) k =
        .ok { batch := some (ops ++ [BatchOp.delOp k]), n_ops := ops.length + 1 }
    ∧ caml_rocksdb_batch_clear (some b) = .ok { batch := some [], n_ops := 0 } := by
  refine ⟨?_, rfl, rfl, ?_, ?_, ?_⟩ <;>
    simp [caml_rocksdb_batch_count, caml_rocksdb_batch_put, caml_rocksdb_batch_delete,
      caml_rocksdb_batch_clear, h1, h2]

/-- Witness for `batch_count_tracks_pending_ops`: the freshly created batch
satisfies the bookkeeping invariant and counts zero. -/
theorem batch_count_tracks_pending_ops_witness :
    caml_rocksdb_batch_create.batch = some []
    ∧ caml_rocksdb_batch_create.n_ops = List.length ([] : List BatchOp)
    ∧ caml_rocksdb_batch_count (some caml_rocksdb_batch_create) = List.length ([] : List BatchOp) :=
  ⟨rfl, rfl, (batch_count_tracks_pending_ops caml_rocksdb_batch_create [] "k" "v" rfl rfl).1⟩

/-- C3 counterexample: an iterator that is live but invalid
(`valid(it) = false`) does not make `iter_key` or `iter_value` fail — both
succeed and hand back the engine's undefined bytes. -/
theorem iter_key_on_invalid_iterator_succeeds :
    caml_rocksdb_iter_valid (some exhaustedIter) = false
    ∧ caml_rocksdb_iter_key (some exhaustedIter) "garbage" = .ok "garbage"
    ∧ caml_rocksdb_iter_value (some exhaustedIter) "garbage" = .ok "garbage" :=
  ⟨rfl, rfl, rfl⟩

/-- C3 amended: the key and value accessors fail with the invalid-iterator
error exactly when the iterator handle (or its engine iterator pointer) is
NULL; they never consult `valid(it)`, so a live iterator that is not
positioned on an entry yields the engine's undefined bytes instead of an
error, and a live, valid iterator yields the current entry's key and
value. -/
theorem iter_accessors_guard_handle_only (h : Option IterWrapper) (junk : Bytes) :
    ((caml_rocksdb_iter_key h junk).toOption.isSome = iterHandleLive h
     ∧ (caml_rocksdb_iter_value h junk).toOption.isSome = iterHandleLive h)
    ∧ (∀ w e i p, h = some w → w.iter = some e → e.pos = some i →
        e.entries[i]? = some p →
        caml_rocksdb_iter_key h junk = .ok p.1
        ∧ caml_rocksdb_iter_value h junk = .ok p.2) := by
  constructor
  · cases h with
    | none => exact ⟨rfl, rfl⟩
    | some w =>
        cases hw : w.iter with
        | none =>
            constructor <;>
              simp [caml_rocksdb_iter_key, caml_rocksdb_iter_value, iterHandleLive, hw,
                Except.toOption]
        | some e =>
            constructor <;>
              simp [caml_rocksdb_iter_key, caml_rocksdb_iter_value, iterHandleLive, hw,
                Except.toOption]
  · rintro w e i p rfl hi hp hep
    constructor <;>
      simp [caml_rocksdb_iter_key, caml_rocksdb_iter_value, hi, engineIterKey,
        engineIterValue, hp, hep]

/-- C9 counterexample: destroying a batch handle a second time is not an
error — the first destroy nulls the handle cell, and batch_destroy,
iter_destroy and snapshot_release on a nulled cell each silently return
unit. -/
theorem second_destroy_returns_unit :
    (caml_rocksdb_batch_destroy (some caml_rocksdb_batch_create)).2 = none
    ∧ caml_rocksdb_batch_destroy none = (Except.ok (), none)
    ∧ caml_rocksdb_iter_destroy none = (Except.ok (), none)
    ∧ caml_rocksdb_snapshot_release none = (Except.ok (), none) :=
  ⟨rfl, rfl, rfl, rfl⟩

/-- C9 amended: batch_destroy, iter_destroy and snapshot_release never
report a failure; the first call nulls the handle cell and a repeated call
on the result is a silent no-op, not an invalid-state error. -/
theorem destroy_release_never_error (hb : Option BatchWrapper) (hi : Option IterWrapper)
    (hs : Option SnapWrapper) :
    (caml_rocksdb_batch_destroy hb).1 = .ok ()
    ∧ (caml_rocksdb_iter_destroy hi).1 = .ok ()
    ∧ (caml_rocksdb_snapshot_release hs).1 = .ok ()
    ∧ caml_rocksdb_batch_destroy (caml_rocksdb_batch_destroy hb).2 = (.ok (), none)
    ∧ caml_rocksdb_iter_destroy (caml_rocksdb_iter_destroy hi).2 = (.ok (), none)
    ∧ caml_rocksdb_snapshot_release (caml_rocksdb_snapshot_release hs).2 =
        (.ok (), (caml_rocksdb_snapshot_release hs).2) := by
  refine ⟨?_, ?_, ?_, ?_, ?_, ?_⟩
  · cases hb <;> rfl
  · cases hi <;> rfl
  · cases hs with
    | none => rfl
    | some s =>
        simp only [caml_rocksdb_snapshot_release]
        split_ifs <;> rfl
  · cases hb <;> rfl
  · cases hi <;> rfl
  · cases hs with
    | none => rfl
    | some s =>
        by_cases hcond : (s.snapshot.isSome && s.db_live) = true
        · simp [caml_rocksdb_snapshot_release, hcond]
        · simp [caml_rocksdb_snapshot_release, hcond]

/-- C10 counterexample: count is not the only batch operation that silently
tolerates a destroyed handle — batch_destroy on an already-destroyed
(NULL) handle also returns unit without an error. -/
theorem batch_destroy_tolerates_destroyed_handle :
    caml_rocksdb_batch_destroy none = (Except.ok (), none)
    ∧ caml_rocksdb_batch_count none = 0 :=
  ⟨rfl, rfl⟩

/-- C10 amended: on a destroyed (NULL) batch handle, count returns 0 without
raising and destroy silently returns unit, while batch_put, batch_delete,
batch_clear, and batch_write (against an open database) each fail with the
invalid-batch error. -/
theorem destroyed_batch_operations (w : DBWrapper) (k v : Bytes) (e : Option String)
    (hopen : w.is_open = true) :
    caml_rocksdb_batch_count none = 0
    ∧ caml_rocksdb_batch_put none k v = .error "rocksdb_batch_put: invalid batch"
    ∧ caml_rocksdb_batch_delete none k = .error "rocksdb_batch_delete: invalid batch"
    ∧ caml_rocksdb_batch_clear none = .error "rocksdb_batch_clear: invalid batch"
    ∧ caml_rocksdb_batch_write (some w) none e = .error "rocksdb_batch_write: invalid batch"
    ∧ (caml_rocksdb_batch_destroy none).1 = .ok () := by
  refine ⟨rfl, rfl, rfl, rfl, ?_, rfl⟩
  simp [caml_rocksdb_batch_write, hopen]

/-- Witness for `destroyed_batch_operations`: against the sample open
database, batch_write on a destroyed batch fails with the invalid-batch
error. -/
theorem destroyed_batch_operations_witness :
    sampleDB.is_open = true
    ∧ caml_rocksdb_batch_count none = 0 :=
  ⟨rfl, (destroyed_batch_operations sampleDB "k" "v" none rfl).1⟩

/-- C4 counterexample: on the fallback path the open call explicitly creates
only seven namespaces — the loop starts at index 1, so the default registry
entry is never passed to `rocksdb_create_column_family` — not all eight
registry entries. -/
theorem open_fallback_creates_only_seven :
    caml_rocksdb_open "newpath" true 0 freshPathEnv =
      .ok (fallbackWrapper "newpath" freshPathEnv, cfNames.drop 1)
    ∧ (cfNames.drop 1).length = 7
    ∧ cfNames.length = 8
    ∧ ¬ "default" ∈ cfNames.drop 1 := by
  refine ⟨rfl, rfl, rfl, ?_⟩
  decide

/-- C4 amended: open first attempts the registry-complete open (no explicit
namespace creation); when that fails it falls back to a plain open — whose
failure is surfaced as an error naming the underlying cause — and on
success explicitly creates the seven non-default well-known namespaces
(the default one exists implicitly and its handle slot is left NULL); and
every handle open ever returns is fully initialized and open. -/
theorem open_two_phase (path : String) (cim : Bool) (comp : Int) (env : OpenEnv)
    (hm : env.mallocOk = true) :
    (env.cfOpenErr = none →
      caml_rocksdb_open path cim comp env = .ok (firstPhaseWrapper path env, []))
    ∧ (∀ e1, env.cfOpenErr = some e1 →
        (∀ e2, env.plainOpenErr = some e2 →
          caml_rocksdb_open path cim comp env = .error ("rocksdb_open failed: " ++ e2))
        ∧ (env.plainOpenErr = none →
            caml_rocksdb_open path cim comp env =
              .ok (fallbackWrapper path env, cfNames.drop 1)
            ∧ (fallbackWrapper path env).is_open = true
            ∧ cfLive (fallbackWrapper path env) 0 = false))
    ∧ (∀ w cs, caml_rocksdb_open path cim comp env = .ok (w, cs) →
        w.is_open = true ∧ w.n_cf = 8 ∧ w.read_options = rocksdb_readoptions_create) := by
  refine ⟨?_, ?_, ?_⟩
  · intro hcf
    simp [caml_rocksdb_open, hcf, hm]
  · intro e1 hcf
    constructor
    · intro e2 hpl
      simp [caml_rocksdb_open, hcf, hpl]
    · intro hpl
      refine ⟨by simp [caml_rocksdb_open, hcf, hpl, hm], rfl, rfl⟩
  · intro w cs hok
    cases hcf : env.cfOpenErr with
    | none =>
        rw [caml_rocksdb_open, hcf] at hok
        rw [hm] at hok
        simp at hok
        obtain ⟨hw, -⟩ := hok
        subst hw
        exact ⟨rfl, rfl, rfl⟩
    | some e1 =>
        rw [caml_rocksdb_open, hcf] at hok
        cases hpl : env.plainOpenErr with
        | none =>
            rw [hpl, hm] at hok
            simp at hok
            obtain ⟨hw, -⟩ := hok
            subst hw
            exact ⟨rfl, rfl, rfl⟩
        | some e2 =>
            rw [hpl] at hok
            simp at hok

/-- Witness for `open_two_phase`: with the fresh-path environment the
fallback succeeds and surfaces the seven explicitly created namespaces. -/
theorem open_two_phase_witness :
    freshPathEnv.mallocOk = true
    ∧ (∀ e2, freshPathEnv.plainOpenErr = some e2 →
        caml_rocksdb_open "p" true 0 freshPathEnv = .error ("rocksdb_open failed: " ++ e2))
    ∧ (freshPathEnv.plainOpenErr = none →
        caml_rocksdb_open "p" true 0 freshPathEnv =
          .ok (fallbackWrapper "p" freshPathEnv, cfNames.drop 1)
        ∧ (fallbackWrapper "p" freshPathEnv).is_open = true
        ∧ cfLive (fallbackWrapper "p" freshPathEnv) 0 = false) :=
  ⟨rfl,
    ((open_two_phase "p" true 0 freshPathEnv rfl).2.1
      "Invalid argument: Column family not found" rfl).1,
    ((open_two_phase "p" true 0 freshPathEnv rfl).2.1
      "Invalid argument: Column family not found" rfl).2⟩

/-- C1: the snapshot-isolation scenario evaluated on the code.  A snapshot
created before `put(K, V2)` duly captures the store holding V1, but the
binding layer offers no read that consumes it: `caml_rocksdb_get` takes no
snapshot argument, the wrapper's read options still carry no snapshot after
the put, and the only available read for K now returns V2.  No read through
the snapshot can observe V1. -/
theorem snapshot_never_consulted_on_read :
    caml_rocksdb_get (some snapshotScenarioDB) 0 "K" none = .ok (some "V1")
    ∧ caml_rocksdb_snapshot_create (some snapshotScenarioDB) =
        .ok { snapshot := some snapshotScenarioDB.store, db_live := true }
    ∧ caml_rocksdb_put (some snapshotScenarioDB) 0 "K" "V2" none = .ok snapshotScenarioDBAfter
    ∧ caml_rocksdb_get (some snapshotScenarioDBAfter) 0 "K" none = .ok (some "V2")
    ∧ snapshotScenarioDBAfter.read_options.snapshot = none := by
  refine ⟨?_, rfl, rfl, ?_, rfl⟩ <;> decide
